import Mathlib

/-!
Verification of the Inspect pattern-matching library for algebraic data types
(src/inc/inspect.hh, src/src/inspect.hh, src/inc/result.hh).

The library's whole content is compile-time C++ template metaprogramming, so
this development shallowly embeds its type-level computation as executable
functions over a small closed universe of C++ types (`Ty`) and runtime values
(`Val`).  A handler (lambda) is modelled by its compile-time interface
(`HKind`: a concrete parameter type, a generic/wildcard parameter, or a
zero-argument lambda), its result-type function (`Handler.retTy`, modelling
std::invoke_result), and its runtime behaviour (`Handler.run`).

The `overloaded` struct of the source (inspect.hh lines 22-25) composes the
handlers into one overload set; calling it triggers C++ overload resolution,
modelled by `resolve`: among the handlers whose concrete parameter type equals
the argument type, a unique one wins (a tie is an ambiguity, hence an
ill-formed call); a non-template (concrete) handler is preferred over a
template (generic) handler regardless of declaration order, per
[over.match.best]; only when no concrete handler matches does the unique
generic handler win.  `std::is_invocable_v<overloaded, T>` is modelled by
`invocable` (the call resolves to a unique handler).  Concrete-parameter
matching is modelled as exact type equality: every call site in the repository
uses class types, scoped enums or wrapper types, none of which implicitly
convert into another handler parameter type.

Compile-time failure is represented by explicit outcome constructors (the
static_assert diagnostics of the SFINAE failure overloads) or by `none`
results (an ill-formed instantiation inside the selected overload's body).
-/

/-- Closed universe of the C++ types appearing in the repository's
Inspect call sites and tests. `tOk t` and `tErr t` are the case-tagged
wrapper types `adt::Ok<T>` and `adt::Error<E>` of src/inc/result.hh. -/
inductive Ty where
  | tA | tB | tC
  | tInt | tLong | tChar
  | tString | tConstCharPtr | tStringView
  | tErrorCode
  | tVoid
  | tOk (t : Ty)
  | tErr (t : Ty)
deriving DecidableEq, Repr

/-- Runtime values inhabiting the universe `Ty`. `vOk` and `vErr` are values
of the wrapper classes `adt::Ok` / `adt::Error` holding their payload. -/
inductive Val where
  | vA | vB | vC
  | vInt (n : Int)
  | vChar (c : Char)
  | vStr (s : String)
  | vErrorCode (n : Nat)
  | vUnit
  | vOk (v : Val)
  | vErr (v : Val)
deriving DecidableEq, Repr

/-- The static type of a runtime value (the active alternative of a variant
holding this value). C-string values only occur as handler results, where
their type is tracked by the handler's result type, so string data maps to
`tString` here. -/
def Val.ty : Val → Ty
  | Val.vA => Ty.tA
  | Val.vB => Ty.tB
  | Val.vC => Ty.tC
  | Val.vInt _ => Ty.tInt
  | Val.vChar _ => Ty.tChar
  | Val.vStr _ => Ty.tString
  | Val.vErrorCode _ => Ty.tErrorCode
  | Val.vUnit => Ty.tVoid
  | Val.vOk v => Ty.tOk v.ty
  | Val.vErr v => Ty.tErr v.ty

/-- Compile-time shape of one handler lambda: a concrete parameter type
(like the non-template `operator()(A)` of a lambda `[](A){...}`), a generic
wildcard parameter (`[](auto){...}`), or a zero-argument lambda
(`[](){...}`). -/
inductive HKind where
  | specific (arg : Ty)
  | generic
  | zeroArg
deriving DecidableEq, Repr

/-- Model of one handler lambda: its overload shape, its result type for a
given argument type (std::invoke_result may depend on the argument for a
generic lambda), its result type when called with no arguments, and its
runtime behaviour. -/
structure Handler where
  kind : HKind
  retTy : Ty → Ty
  retTyZero : Ty
  run : Val → Val
  runZero : Val

/-- Does this handler's concrete parameter type match an argument of type
`t`?  Generic and zero-argument handlers never match as a concrete
(non-template) candidate. -/
def Handler.matchesArg (h : Handler) (t : Ty) : Bool :=
  match h.kind with
  | HKind.specific a => decide (a = t)
  | HKind.generic => false
  | HKind.zeroArg => false

/-- Is this handler a generic (wildcard) lambda? -/
def Handler.isGeneric (h : Handler) : Bool :=
  match h.kind with
  | HKind.generic => true
  | _ => false

/-- Is this handler a zero-argument lambda? -/
def Handler.isZeroArg (h : Handler) : Bool :=
  match h.kind with
  | HKind.zeroArg => true
  | _ => false

/-- C++ overload resolution for a one-argument call on the `overloaded`
composition of the handler list (inspect.hh lines 22-25): a unique concrete
(non-template) handler whose parameter type equals the argument type wins,
irrespective of its position; two concrete matches are ambiguous (the call is
ill-formed, `none`); with no concrete match, a unique generic handler wins,
and several generic candidates are again ambiguous. -/
def resolve (hs : List Handler) (t : Ty) : Option Handler :=
  match List.filter (fun h => h.matchesArg t) hs with
  | [h] => some h
  | [] =>
    match List.filter Handler.isGeneric hs with
    | [h] => some h
    | _ => none
  | _ => none

/-- Model of `std::is_invocable_v<overloaded<Lambdas...>, T>`: the call with
one argument of type `T` resolves to a unique handler. -/
def invocable (hs : List Handler) (t : Ty) : Bool :=
  (resolve hs t).isSome

/-- Overload resolution for a zero-argument call on the composed overload
set: a unique zero-argument handler wins; none or several is ill-formed. -/
def resolveZero (hs : List Handler) : Option Handler :=
  match List.filter Handler.isZeroArg hs with
  | [h] => some h
  | _ => none

/-- Model of `std::is_invocable_v<overloaded<Lambdas...>>`. -/
def invocableZero (hs : List Handler) : Bool :=
  (resolveZero hs).isSome

/-- Model of `std::is_convertible_v` on the universe `Ty`, restricted to the
conversions the repository exercises (identity, integer promotions, and the
C-string to std::string / std::string_view conversions).  No non-void type
converts to void and void converts to no non-void type. -/
def convertible (a b : Ty) : Bool :=
  if a = b then true
  else match a, b with
    | Ty.tInt, Ty.tLong => true
    | Ty.tLong, Ty.tInt => true
    | Ty.tChar, Ty.tInt => true
    | Ty.tConstCharPtr, Ty.tString => true
    | Ty.tConstCharPtr, Ty.tStringView => true
    | _, _ => false

/-- Model of `std::common_type_t` on the universe `Ty` (the type both sides
convert to, per the conditional-operator rule), for the pairs relevant here. -/
def commonTy (a b : Ty) : Option Ty :=
  if a = b then some a
  else match a, b with
    | Ty.tInt, Ty.tLong => some Ty.tLong
    | Ty.tLong, Ty.tInt => some Ty.tLong
    | Ty.tConstCharPtr, Ty.tString => some Ty.tString
    | Ty.tString, Ty.tConstCharPtr => some Ty.tString
    | _, _ => none

/-- Value-level effect of converting a handler result to the pinned result
type `R` (the `R{...}` wrap, or `std::visit<R>`): conversion to void discards
the value; every other conversion in this universe preserves the payload
(e.g. a C-string and the std::string built from it carry the same text). -/
def castVal (R : Ty) (x : Val) : Val :=
  if R = Ty.tVoid then Val.vUnit else x

/-- Model of `traits::is_exhaustive_variant` (src/inc/inspect.hh lines
172-179): the composed visitor is invocable with every alternative of the
variant. -/
def isExhaustiveVariant (hs : List Handler) (alts : List Ty) : Bool :=
  List.all alts (fun a => invocable hs a)

/-- Model of `diagnostic::variant_validator` (src/inc/inspect.hh lines
51-73): the list of alternative types for which the fold across `Alts...`
fires the `MISSING_HANDLER_FOR_TYPE` static_assert, i.e. the alternatives
with no invocable handler. -/
def variantMissing (hs : List Handler) (alts : List Ty) : List Ty :=
  List.filter (fun a => !(invocable hs a)) alts

/-- Outcome of an Inspect call on a variant: either the dispatching overload
is selected (`dispatched`; its payload is `none` when the instantiated body
is itself ill-formed, e.g. std::visit with differing per-alternative return
types), or SFINAE selects the diagnostic overload (src/inc/inspect.hh lines
264-281), whose validator static_asserts on each uncovered alternative. -/
inductive VOut where
  | dispatched (r : Option Val)
  | missingHandlerError (uncovered : List Ty)
deriving DecidableEq, Repr

/-- Was the dispatching (non-diagnostic) overload selected? -/
def VOut.isDispatched : VOut → Bool
  | VOut.dispatched _ => true
  | VOut.missingHandlerError _ => false

/-- Return type deduced by `std::visit` without an explicit result type:
per [variant.visit] the invocations on all alternatives must have the same
type; the deduced type is that common invocation type, and the visit is
ill-formed (`none`) when the per-alternative invocation types differ. -/
def deducedVisitTy (hs : List Handler) (alts : List Ty) : Option Ty :=
  match alts with
  | [] => none
  | a :: rest =>
    match resolve hs a with
    | none => none
    | some h =>
      if List.all rest (fun b =>
           match resolve hs b with
           | some g => decide (g.retTy b = h.retTy a)
           | none => false)
      then some (h.retTy a) else none

/-- Runtime behaviour of `std::visit(overloaded{lambdas...}, variant)` in
deduced-return-type mode: if the visit instantiates (same invocation type on
every alternative) it reads the active alternative's tag and invokes the
resolved handler on the held value. -/
def visitDeduced (hs : List Handler) (alts : List Ty) (v : Val) : Option Val :=
  match deducedVisitTy hs alts with
  | none => none
  | some _ =>
    if v.ty ∈ alts then (resolve hs v.ty).map (fun h => h.run v) else none

/-- Model of the variant `Inspect` of src/inc/inspect.hh (lines 241-281) in
deduced-return-type mode: SFINAE selects the dispatching overload (lines
252-261) exactly when `is_exhaustive_variant` holds, and otherwise the
diagnostic overload (lines 264-281), which static_asserts naming each
uncovered alternative via `variant_validator`. -/
def InspectVariant (alts : List Ty) (hs : List Handler) (v : Val) : VOut :=
  if isExhaustiveVariant hs alts then VOut.dispatched (visitDeduced hs alts v)
  else VOut.missingHandlerError (variantMissing hs alts)

/-- Modelled from the spec: the spec's ambiguity policy says dispatch
"invokes the first matching handler in declaration order"; this definition
follows those words literally (scan the handler list and take the first
handler invocable with the active case's payload type), to be compared with
the overload-resolution dispatch the code actually performs. -/
def specFirstMatchDispatch (hs : List Handler) (t : Ty) (v : Val) : Option Val :=
  (List.find? (fun h => h.matchesArg t || h.isGeneric) hs).map (fun h => h.run v)

/-- Model of `detail::INVALID_RETURN_TYPE<SourceT, ActualRet, ExpectedRet>`
diagnostics (src/src/inspect.hh lines 70-73, 106-133): the list of
`(alternative, actual result type, pinned type R)` triples for which the
return-type phase fires a static_assert, i.e. the alternatives whose handler
result is not convertible to `R` (a void `R` accepts everything). -/
def invalidReturnErrs (R : Ty) (hs : List Handler) (alts : List Ty) :
    List (Ty × Ty × Ty) :=
  List.filterMap (fun a =>
    match resolve hs a with
    | some h =>
      if convertible (h.retTy a) R || decide (R = Ty.tVoid) then none
      else some (a, h.retTy a, R)
    | none => none) alts

/-- Outcome of the explicit-return-type variant `Inspect` of
src/src/inspect.hh: success, the phase-1 missing-handler static_asserts, or
the phase-2 invalid-return-type static_asserts. -/
inductive SrcOut where
  | ok (r : Option Val)
  | missingHandler (uncovered : List Ty)
  | invalidReturn (errs : List (Ty × Ty × Ty))
deriving DecidableEq, Repr

/-- Model of the variant `Inspect` of src/src/inspect.hh (lines 82-144) with
an explicitly pinned result type `R`: phase 1 static_asserts on each
uncovered alternative if the handler set is not exhaustive; phase 2
static_asserts `INVALID_RETURN_TYPE<Alt, ActualRet, R>` for each alternative
whose handler result is not convertible to `R` (void `R` accepts any
result); phase 3 performs `std::visit<R>`, invoking the handler resolved for
the active alternative and converting its result to `R`. -/
def InspectVariantSrcR (R : Ty) (alts : List Ty) (hs : List Handler)
    (v : Val) : SrcOut :=
  if isExhaustiveVariant hs alts then
    if invalidReturnErrs R hs alts = [] then
      SrcOut.ok (if v.ty ∈ alts then
        (resolve hs v.ty).map (fun h => castVal R (h.run v)) else none)
    else SrcOut.invalidReturn (invalidReturnErrs R hs alts)
  else SrcOut.missingHandler (variantMissing hs alts)

/-- Model of an `std::optional` value: its value_type and its state
(`some` = engaged, `none` = nullopt). -/
structure OptVal where
  ty : Ty
  val : Option Val
deriving DecidableEq, Repr

/-- Model of `traits::is_exhaustive_optional` (src/inc/inspect.hh lines
182-187): the composed visitor is invocable with the value type and
invocable with no arguments. -/
def isExhaustiveOptional (hs : List Handler) (valueTy : Ty) : Bool :=
  invocable hs valueTy && invocableZero hs

/-- Outcome of an Inspect call on an optional: either the dispatching
overload (src/inc/inspect.hh lines 318-352) is selected, or SFINAE selects
the diagnostic overload (lines 355-368) whose `optional_validator`
static_asserts for the missing value handler and/or the missing
zero-argument handler. -/
inductive OptOut where
  | dispatched (r : Option Val)
  | optionalError (missingValue : Bool) (missingNone : Bool)
deriving DecidableEq, Repr

/-- Was the dispatching (non-diagnostic) optional overload selected? -/
def OptOut.isDispatched : OptOut → Bool
  | OptOut.dispatched _ => true
  | OptOut.optionalError _ _ => false

/-- Model of the optional `Inspect` of src/inc/inspect.hh (lines 318-368)
with an explicitly pinned result type `R`: gated by
`is_exhaustive_optional`; an engaged optional invokes the visitor on the
held value and wraps the result in `R{...}`, an empty optional invokes the
zero-argument path; the result payload is `none` when the `R{...}`
conversion of the invoked handler's result is ill-formed. -/
def InspectOptionalR (R : Ty) (hs : List Handler) (o : OptVal) : OptOut :=
  if isExhaustiveOptional hs o.ty then
    OptOut.dispatched (match o.val with
      | some x =>
        match resolve hs o.ty with
        | some h =>
          if convertible (h.retTy o.ty) R then some (castVal R (h.run x))
          else none
        | none => none
      | none =>
        match resolveZero hs with
        | some h =>
          if convertible h.retTyZero R then some (castVal R h.runZero)
          else none
        | none => none)
  else OptOut.optionalError (!(invocable hs o.ty)) (!(invocableZero hs))

/-- Model of `adt::Result<T, E>` (src/inc/result.hh lines 59-148): its two
type parameters and its variant member `_data : std::variant<Ok<T>,
Error<E>>`, rendered as a sum whose left side holds a success payload and
whose right side holds an error payload. -/
structure Result where
  T : Ty
  E : Ty
  data : Sum Val Val
deriving DecidableEq, Repr

/-- The constructor `Result(Ok<T> val)` (src/inc/result.hh line 67). -/
def mkOk (T E : Ty) (p : Val) : Result :=
  { T := T, E := E, data := Sum.inl p }

/-- The constructor `Result(Error<E> err)` (src/inc/result.hh line 68). -/
def mkError (T E : Ty) (p : Val) : Result :=
  { T := T, E := E, data := Sum.inr p }

/-- Model of `Result::has_value` (src/inc/result.hh lines 70-73):
`std::holds_alternative<Ok<T>>(_data)`. -/
def Result.has_value (r : Result) : Bool :=
  match r.data with
  | Sum.inl _ => true
  | Sum.inr _ => false

/-- Model of `Result::has_error` (src/inc/result.hh lines 74-77):
`std::holds_alternative<Error<E>>(_data)`. -/
def Result.has_error (r : Result) : Bool :=
  match r.data with
  | Sum.inl _ => false
  | Sum.inr _ => true

/-- The static type of `Result::value()`'s result (src/inc/result.hh lines
79-104): the case-tagged wrapper `Ok<T>` itself when `T == E`, otherwise the
bare payload obtained through `.get()`. -/
def valueTyOf (T E : Ty) : Ty :=
  if T = E then Ty.tOk T else T

/-- The static type of `Result::error()`'s result (src/inc/result.hh lines
106-131): the wrapper `Error<E>` when `T == E`, otherwise the bare payload. -/
def errorTyOf (T E : Ty) : Ty :=
  if T = E then Ty.tErr E else E

/-- Model of `Result::value()` (src/inc/result.hh lines 79-104):
`ensure_value()` asserts and calls std::abort when the Result holds an error
(modelled as `none`); otherwise it returns the `Ok<T>` wrapper when
`T == E` and the bare payload otherwise. -/
def Result.valueOpt (r : Result) : Option Val :=
  match r.data with
  | Sum.inl p => some (if r.T = r.E then Val.vOk p else p)
  | Sum.inr _ => none

/-- Model of `Result::error()` (src/inc/result.hh lines 106-131):
`ensure_error()` asserts and aborts on a success-state Result (`none`);
otherwise it returns the `Error<E>` wrapper when `T == E` and the bare
payload otherwise. -/
def Result.errorOpt (r : Result) : Option Val :=
  match r.data with
  | Sum.inl _ => none
  | Sum.inr p => some (if r.T = r.E then Val.vErr p else p)

/-- Model of `traits::is_exhaustive_expected` (src/inc/inspect.hh lines
190-197): the composed visitor is invocable with the type of `value()` and
with the type of `error()`. -/
def isExhaustiveExpected (hs : List Handler) (T E : Ty) : Bool :=
  invocable hs (valueTyOf T E) && invocable hs (errorTyOf T E)

/-- Outcome of an Inspect call on an Expected/Result: either the dispatching
overload (src/inc/inspect.hh lines 412-441) is selected, or SFINAE selects
the diagnostic overload (lines 444-455) whose `expected_validator`
static_asserts for the missing success and/or error handler. -/
inductive EOut where
  | dispatched (r : Option Val)
  | expectedError (missingValue : Bool) (missingError : Bool)
deriving DecidableEq, Repr

/-- Was the dispatching (non-diagnostic) expected overload selected? -/
def EOut.isDispatched : EOut → Bool
  | EOut.dispatched _ => true
  | EOut.expectedError _ _ => false

/-- Model of the Expected/Result `Inspect` of src/inc/inspect.hh (lines
412-455) with an explicitly pinned result type `R`: gated by
`is_exhaustive_expected`; it reads `has_value()` and invokes the visitor on
`value()` (the `Ok<T>` wrapper when `T == E`, the bare payload otherwise) or
on `error()`, wrapping the result in `R{...}`. -/
def InspectExpectedR (R : Ty) (hs : List Handler) (r : Result) : EOut :=
  if isExhaustiveExpected hs r.T r.E then
    EOut.dispatched (match r.data with
      | Sum.inl p =>
        match resolve hs (valueTyOf r.T r.E) with
        | some h =>
          if convertible (h.retTy (valueTyOf r.T r.E)) R then
            some (castVal R (h.run (if r.T = r.E then Val.vOk p else p)))
          else none
        | none => none
      | Sum.inr p =>
        match resolve hs (errorTyOf r.T r.E) with
        | some h =>
          if convertible (h.retTy (errorTyOf r.T r.E)) R then
            some (castVal R (h.run (if r.T = r.E then Val.vErr p else p)))
          else none
        | none => none)
  else
    EOut.expectedError (!(invocable hs (valueTyOf r.T r.E)))
      (!(invocable hs (errorTyOf r.T r.E)))

/-- Concrete handler `[](A value) { return "h1"; }` (a lambda with a
concrete parameter of case type A, returning std::string). -/
def hSpecA : Handler :=
  { kind := HKind.specific Ty.tA
    retTy := fun _ => Ty.tString
    retTyZero := Ty.tVoid
    run := fun _ => Val.vStr ("h1")
    runZero := Val.vUnit }

/-- Concrete wildcard handler `[](auto value) { return "h2"; }`. -/
def hGen : Handler :=
  { kind := HKind.generic
    retTy := fun _ => Ty.tString
    retTyZero := Ty.tVoid
    run := fun _ => Val.vStr ("h2")
    runZero := Val.vUnit }

/-- Concrete handler `[](A value) { return 1; }` returning int. -/
def hAInt : Handler :=
  { kind := HKind.specific Ty.tA
    retTy := fun _ => Ty.tInt
    retTyZero := Ty.tVoid
    run := fun _ => Val.vInt 1
    runZero := Val.vUnit }

/-- Concrete handler `[](B value) { return 2L; }` returning long. -/
def hBLong : Handler :=
  { kind := HKind.specific Ty.tB
    retTy := fun _ => Ty.tLong
    retTyZero := Ty.tVoid
    run := fun _ => Val.vInt 2
    runZero := Val.vUnit }

/-- Concrete handler `[](B value) { return 2; }` returning int. -/
def hBInt : Handler :=
  { kind := HKind.specific Ty.tB
    retTy := fun _ => Ty.tInt
    retTyZero := Ty.tVoid
    run := fun _ => Val.vInt 2
    runZero := Val.vUnit }

/-- Concrete handler `[](A value) { return "an"; }` returning a C-string. -/
def hACStr : Handler :=
  { kind := HKind.specific Ty.tA
    retTy := fun _ => Ty.tConstCharPtr
    retTyZero := Ty.tVoid
    run := fun _ => Val.vStr ("an")
    runZero := Val.vUnit }

/-- Concrete handler `[](B value) { return "b"; }` returning a C-string. -/
def hBCStr : Handler :=
  { kind := HKind.specific Ty.tB
    retTy := fun _ => Ty.tConstCharPtr
    retTyZero := Ty.tVoid
    run := fun _ => Val.vStr ("b")
    runZero := Val.vUnit }

/-- Concrete handler
`[](int value) { return "Value: " + std::to_string(value); }`. -/
def hValueInt : Handler :=
  { kind := HKind.specific Ty.tInt
    retTy := fun _ => Ty.tString
    retTyZero := Ty.tVoid
    run := fun v => match v with
      | Val.vInt n => Val.vStr ("Value: " ++ toString n)
      | _ => Val.vUnit
    runZero := Val.vUnit }

/-- Concrete zero-argument handler `[]() { return "No Value"; }`. -/
def hNoValue : Handler :=
  { kind := HKind.zeroArg
    retTy := fun _ => Ty.tVoid
    retTyZero := Ty.tString
    run := fun _ => Val.vUnit
    runZero := Val.vStr ("No Value") }

/-- Concrete handler `[](ErrorCode err) { return "Error: " +
std::to_string(static_cast<int>(err)); }`. -/
def hErrCode : Handler :=
  { kind := HKind.specific Ty.tErrorCode
    retTy := fun _ => Ty.tString
    retTyZero := Ty.tVoid
    run := fun v => match v with
      | Val.vErrorCode n => Val.vStr ("Error: " ++ toString n)
      | _ => Val.vUnit
    runZero := Val.vUnit }

/-- Concrete handler `[](adt::Ok<int> value) { return "Value: " +
std::to_string(value.get()); }` keyed on the success wrapper. -/
def hOkInt : Handler :=
  { kind := HKind.specific (Ty.tOk Ty.tInt)
    retTy := fun _ => Ty.tString
    retTyZero := Ty.tVoid
    run := fun v => match v with
      | Val.vOk (Val.vInt n) => Val.vStr ("Value: " ++ toString n)
      | _ => Val.vUnit
    runZero := Val.vUnit }

/-- Concrete handler `[](adt::Error<int> err) { return "Error: " +
std::to_string(err.get()); }` keyed on the failure wrapper. -/
def hErrInt : Handler :=
  { kind := HKind.specific (Ty.tErr Ty.tInt)
    retTy := fun _ => Ty.tString
    retTyZero := Ty.tVoid
    run := fun v => match v with
      | Val.vErr (Val.vInt n) => Val.vStr ("Error: " ++ toString n)
      | _ => Val.vUnit
    runZero := Val.vUnit }

/-- Two successive Inspect calls on the same variant value with the same
handlers, written in state-passing form: the pair of both results together
with the value as it stands after both calls (the C++ call takes the const
value by reference and cannot modify it). -/
def InspectVariantTwice (alts : List Ty) (hs : List Handler) (v : Val) :
    VOut × VOut × Val :=
  (InspectVariant alts hs v, InspectVariant alts hs v, v)

/-- Two successive Inspect calls on the same optional value with the same
handlers, in the same state-passing form. -/
def InspectOptionalTwice (R : Ty) (hs : List Handler) (o : OptVal) :
    OptOut × OptOut × OptVal :=
  (InspectOptionalR R hs o, InspectOptionalR R hs o, o)

/-- Two successive Inspect calls on the same Result value with the same
handlers, in the same state-passing form. -/
def InspectExpectedTwice (R : Ty) (hs : List Handler) (r : Result) :
    EOut × EOut × Result :=
  (InspectExpectedR R hs r, InspectExpectedR R hs r, r)

theorem invocable_of_mem_exhaustive (hs : List Handler) (alts : List Ty)
    (a : Ty) (hex : isExhaustiveVariant hs alts = true) (ha : a ∈ alts) :
    invocable hs a = true :=
  List.all_eq_true.mp hex a ha

/-- Claim C1: for every variant and handler set, the Inspect call compiles
and dispatches (SFINAE selects the dispatching overload rather than the
diagnostic one) if and only if the combined handler set is invocable with
every alternative; if some alternative has no invocable handler, the
diagnostic overload is selected and its validator static_asserts on a
nonempty list naming exactly the uncovered alternatives' payload types. -/
theorem claim_C1_exhaustive_gate : ∀ (alts : List Ty) (hs : List Handler)
    (v : Val),
    ((InspectVariant alts hs v).isDispatched = true
      ↔ isExhaustiveVariant hs alts = true)
    ∧ (isExhaustiveVariant hs alts = true ↔ ∀ a ∈ alts, invocable hs a = true)
    ∧ (isExhaustiveVariant hs alts = false →
        InspectVariant alts hs v = VOut.missingHandlerError (variantMissing hs alts)
        ∧ variantMissing hs alts ≠ []
        ∧ ∀ t : Ty, t ∈ variantMissing hs alts ↔ (t ∈ alts ∧ invocable hs t = false)) := by
  intro alts hs v
  refine ⟨?_, ?_, ?_⟩
  · cases hex : isExhaustiveVariant hs alts
    · simp [InspectVariant, hex, VOut.isDispatched]
    · simp [InspectVariant, hex, VOut.isDispatched]
  · simp [isExhaustiveVariant, List.all_eq_true]
  · intro hnex
    refine ⟨by simp [InspectVariant, hnex], ?_, ?_⟩
    · intro hempty
      have hall : ∀ a ∈ alts, invocable hs a = true := by
        intro a ha
        cases hval : invocable hs a
        · exfalso
          have hmem : a ∈ variantMissing hs alts :=
            List.mem_filter.mpr ⟨ha, by simp [hval]⟩
          rw [hempty] at hmem
          exact (List.not_mem_nil a) hmem
        · rfl
      have hex : isExhaustiveVariant hs alts = true :=
        List.all_eq_true.mpr hall
      rw [hex] at hnex
      exact Bool.noConfusion hnex
    · intro t
      simp [variantMissing, List.mem_filter]

theorem claim_C1_witness :
    InspectVariant [Ty.tA, Ty.tB] [hSpecA] Val.vA
      = VOut.missingHandlerError [Ty.tB] := by
  have h := ((claim_C1_exhaustive_gate [Ty.tA, Ty.tB] [hSpecA] Val.vA).2.2
    (by decide)).1
  exact h.trans (by decide)

/-- Claim C2 counterexample: the claim says Inspect invokes the first
matching handler in declaration order.  With a wildcard handler h2 declared
before a concrete handler h1 for case A, both match a value in case A; the
first matching handler in declaration order is h2 (producing "h2"), but the
code's overload resolution prefers the non-template h1 (producing "h1"), so
the dispatched result differs from the spec's first-match dispatch. -/
theorem claim_C2_counterexample :
    InspectVariant [Ty.tA, Ty.tB] [hGen, hSpecA] Val.vA
        ≠ VOut.dispatched (specFirstMatchDispatch [hGen, hSpecA] Ty.tA Val.vA)
    ∧ InspectVariant [Ty.tA, Ty.tB] [hGen, hSpecA] Val.vA
        = VOut.dispatched (some (Val.vStr ("h1")))
    ∧ specFirstMatchDispatch [hGen, hSpecA] Ty.tA Val.vA
        = some (Val.vStr ("h2")) :=
  ⟨by decide, by decide, by decide⟩

/-- Claim C2 (amended): when multiple handlers are invocable for the active
case, the handler is chosen by overload resolution on the composed overload
set, not by declaration order: the unique handler with a concrete parameter
type equal to the case's payload type wins regardless of its position, and
only when no concrete handler matches does the unique generic handler win;
in particular dispatching a value in case A with handlers [h1: accepts A,
h2: wildcard] invokes h1, not h2, in either declaration order. -/
theorem claim_C2_amended_overload_order : ∀ (hs : List Handler) (t : Ty)
    (h : Handler),
    (List.filter (fun x => x.matchesArg t) hs = [h] → resolve hs t = some h)
    ∧ (List.filter (fun x => x.matchesArg t) hs = [] →
        List.filter Handler.isGeneric hs = [h] → resolve hs t = some h)
    ∧ InspectVariant [Ty.tA, Ty.tB] [hSpecA, hGen] Val.vA
        = VOut.dispatched (some (Val.vStr ("h1")))
    ∧ InspectVariant [Ty.tA, Ty.tB] [hGen, hSpecA] Val.vA
        = VOut.dispatched (some (Val.vStr ("h1"))) := by
  intro hs t h
  refine ⟨?_, ?_, by decide, by decide⟩
  · intro hf
    simp [resolve, hf]
  · intro hf hg
    simp [resolve, hf, hg]

theorem claim_C2_amended_witness :
    resolve [hGen, hSpecA] Ty.tA = some hSpecA :=
  (claim_C2_amended_overload_order [hGen, hSpecA] Ty.tA hSpecA).1 (by rfl)

theorem deducedVisitTy_eq (hs : List Handler) (alts : List Ty) (t : Ty)
    (hd : deducedVisitTy hs alts = some t) :
    ∀ a ∈ alts, ∀ h, resolve hs a = some h → h.retTy a = t := by
  cases alts with
  | nil => exact absurd hd (by simp [deducedVisitTy])
  | cons a0 rest =>
    intro a ha h hres
    simp only [deducedVisitTy] at hd
    split at hd
    next hr0 => exact Option.noConfusion hd
    next h0 hr0 =>
      split at hd
      next hc =>
        have ht : h0.retTy a0 = t := Option.some.inj hd
        rcases List.mem_cons.mp ha with rfl | hmem
        · rw [hr0] at hres
          rw [← Option.some.inj hres]
          exact ht
        · have hb := List.all_eq_true.mp hc a hmem
          rw [hres] at hb
          have hr : h.retTy a = h0.retTy a0 := of_decide_eq_true hb
          rw [hr]
          exact ht
      next hc => exact Option.noConfusion hd

/-- Claim C5 counterexample: the claim says the deduced result type of
Inspect is the common type producible by all invoked handlers, failing only
when no common type exists.  Handlers returning int for case A and long for
case B have the common type long (both convert to it), yet the std::visit
instantiation inside the dispatching overload is ill-formed because the
per-alternative invocation types are not identical, so compilation fails
where the claim predicts success with result type long. -/
theorem claim_C5_counterexample :
    commonTy Ty.tInt Ty.tLong = some Ty.tLong
    ∧ isExhaustiveVariant [hAInt, hBLong] [Ty.tA, Ty.tB] = true
    ∧ deducedVisitTy [hAInt, hBLong] [Ty.tA, Ty.tB] = none
    ∧ InspectVariant [Ty.tA, Ty.tB] [hAInt, hBLong] Val.vA
        = VOut.dispatched none :=
  ⟨by decide, by decide, by decide, by decide⟩

/-- Claim C5 (amended): under deduced return type, for every variant value
and exhaustive handler set the result type of Inspect is the single type
returned identically by the handlers on every alternative; if the per-case
result types are not all identical — even when they admit a common
conversion type — the std::visit instantiation is ill-formed and
compilation fails; handlers returning int for every case deduce int. -/
theorem claim_C5_amended_deduced : ∀ (alts : List Ty) (hs : List Handler)
    (v : Val) (t : Ty),
    (deducedVisitTy hs alts = some t →
      ∀ a ∈ alts, ∀ h, resolve hs a = some h → h.retTy a = t)
    ∧ (deducedVisitTy hs alts = none →
      ∀ x : Val, InspectVariant alts hs v ≠ VOut.dispatched (some x))
    ∧ deducedVisitTy [hAInt, hBInt] [Ty.tA, Ty.tB] = some Ty.tInt
    ∧ InspectVariant [Ty.tA, Ty.tB] [hAInt, hBInt] Val.vA
        = VOut.dispatched (some (Val.vInt 1)) := by
  intro alts hs v t
  refine ⟨deducedVisitTy_eq hs alts t, ?_, by decide, by decide⟩
  intro hnone x heq
  by_cases hex : isExhaustiveVariant hs alts = true
  · rw [InspectVariant.eq_def, if_pos hex] at heq
    have hv : visitDeduced hs alts v = some x := VOut.dispatched.inj heq
    rw [visitDeduced.eq_def, hnone] at hv
    exact Option.noConfusion hv
  · rw [InspectVariant.eq_def, if_neg hex] at heq
    exact VOut.noConfusion heq

theorem claim_C5_amended_witness :
    Handler.retTy hAInt Ty.tA = Ty.tInt :=
  (claim_C5_amended_deduced [Ty.tA, Ty.tB] [hAInt, hBInt] Val.vA Ty.tInt).1
    (by decide) Ty.tA (by decide) hAInt (by rfl)

/-- Claim C3: for a Result whose success and failure payload types coincide,
the payload accessors expose the case-tagged wrappers (`Ok<T>` on the
success side, `Error<E>` on the failure side) rather than the bare payload,
so Inspect with handlers keyed on the wrappers dispatches a success-wrapped
value to the success handler (the one resolved at the `Ok<T>` type) and
never to the failure handler; concretely `Ok(55)` in a `Result<int, int>`
yields the success handler's string, not the failure handler's. -/
theorem claim_C3_same_type_wrappers : ∀ (T : Ty) (p : Val)
    (hs : List Handler) (R : Ty) (h : Handler),
    valueTyOf T T = Ty.tOk T
    ∧ errorTyOf T T = Ty.tErr T
    ∧ (mkOk T T p).valueOpt = some (Val.vOk p)
    ∧ (mkError T T p).errorOpt = some (Val.vErr p)
    ∧ (isExhaustiveExpected hs T T = true → resolve hs (Ty.tOk T) = some h →
        InspectExpectedR R hs (mkOk T T p)
          = EOut.dispatched (if convertible (h.retTy (Ty.tOk T)) R
              then some (castVal R (h.run (Val.vOk p))) else none))
    ∧ InspectExpectedR Ty.tString [hOkInt, hErrInt]
        (mkOk Ty.tInt Ty.tInt (Val.vInt 55))
        = EOut.dispatched (some (Val.vStr ("Value: 55")))
    ∧ InspectExpectedR Ty.tString [hOkInt, hErrInt]
        (mkOk Ty.tInt Ty.tInt (Val.vInt 55))
        ≠ EOut.dispatched (some (Handler.run hErrInt (Val.vErr (Val.vInt 55)))) := by
  intro T p hs R h
  have hvt : valueTyOf T T = Ty.tOk T := if_pos rfl
  refine ⟨hvt, if_pos rfl, by simp [Result.valueOpt, mkOk],
    by simp [Result.errorOpt, mkError], ?_, by decide, by decide⟩
  intro hex hres
  simp only [InspectExpectedR, mkOk, hvt, hex, if_true, hres]

/-- Claim C4: under an explicitly pinned result type `R`, with an exhaustive
handler set: when each alternative's handler result is convertible to `R`
the call compiles and returns the active handler's result converted to `R`;
an alternative whose handler result is not convertible to a non-void `R`
makes compilation fail with an `INVALID_RETURN_TYPE` diagnostic carrying the
offending alternative, its actual result type and the expected `R`; and a
void `R` accepts any handler result. -/
theorem claim_C4_explicit_return : ∀ (R : Ty) (alts : List Ty)
    (hs : List Handler) (v : Val) (h : Handler),
    isExhaustiveVariant hs alts = true →
    v.ty ∈ alts →
    resolve hs v.ty = some h →
    ((∀ a ∈ alts, ∀ g, resolve hs a = some g →
        convertible (g.retTy a) R = true) →
        InspectVariantSrcR R alts hs v = SrcOut.ok (some (castVal R (h.run v))))
    ∧ (∀ a ∈ alts, ∀ g, resolve hs a = some g →
        convertible (g.retTy a) R = false → R ≠ Ty.tVoid →
        InspectVariantSrcR R alts hs v
            = SrcOut.invalidReturn (invalidReturnErrs R hs alts)
        ∧ (a, g.retTy a, R) ∈ invalidReturnErrs R hs alts)
    ∧ (R = Ty.tVoid →
        InspectVariantSrcR R alts hs v = SrcOut.ok (some Val.vUnit)) := by
  intro R alts hs v h hex hmem hres
  refine ⟨?_, ?_, ?_⟩
  · intro hconv
    have herrs : invalidReturnErrs R hs alts = [] := by
      simp only [invalidReturnErrs]
      rw [List.filterMap_eq_nil_iff]
      intro a ha
      cases hra : resolve hs a with
      | none => simp [hra]
      | some g => simp [hra, hconv a ha g hra]
    rw [InspectVariantSrcR.eq_def, if_pos hex, if_pos herrs, if_pos hmem, hres]
    rfl
  · intro a ha g hg hconv hnv
    have hmemerr : (a, g.retTy a, R) ∈ invalidReturnErrs R hs alts := by
      simp only [invalidReturnErrs]
      apply List.mem_filterMap.mpr
      refine ⟨a, ha, ?_⟩
      rw [hg]
      simp [hconv, hnv]
    have herrs : ¬(invalidReturnErrs R hs alts = []) := by
      intro hempty
      rw [hempty] at hmemerr
      exact List.not_mem_nil _ hmemerr
    exact ⟨by rw [InspectVariantSrcR.eq_def, if_pos hex, if_neg herrs], hmemerr⟩
  · intro hRv
    subst hRv
    have herrs : invalidReturnErrs Ty.tVoid hs alts = [] := by
      simp only [invalidReturnErrs]
      rw [List.filterMap_eq_nil_iff]
      intro a ha
      cases hra : resolve hs a with
      | none => simp [hra]
      | some g => simp [hra]
    rw [InspectVariantSrcR.eq_def, if_pos hex, if_pos herrs, if_pos hmem, hres]
    simp [castVal]

theorem claim_C4_witness :
    InspectVariantSrcR Ty.tString [Ty.tA, Ty.tB] [hACStr, hBCStr] Val.vA
      = SrcOut.ok (some (castVal Ty.tString (Handler.run hACStr Val.vA))) := by
  have h := (claim_C4_explicit_return Ty.tString [Ty.tA, Ty.tB]
    [hACStr, hBCStr] Val.vA hACStr (by decide) (by decide) (by rfl)).1
  apply h
  intro a ha g hg
  fin_cases ha
  · have e : resolve [hACStr, hBCStr] Ty.tA = some hACStr := rfl
    rw [e] at hg
    rw [← Option.some.inj hg]
    decide
  · have e : resolve [hACStr, hBCStr] Ty.tB = some hBCStr := rfl
    rw [e] at hg
    rw [← Option.some.inj hg]
    decide

/-- Claim C6: for every optional value, the dispatching overload is selected
(the call compiles) if and only if the composed handler set is invocable
with the inner-value type and invocable with zero arguments, both mandatory
and independent; otherwise the diagnostic overload reports which of the two
is missing; a present optional holding 42 with the (value-handler,
absent-handler) pair yields "Value: 42" and the absent optional with the
same handlers yields "No Value". -/
theorem claim_C6_optional : ∀ (R : Ty) (hs : List Handler) (o : OptVal),
    ((InspectOptionalR R hs o).isDispatched = true
      ↔ (invocable hs o.ty = true ∧ invocableZero hs = true))
    ∧ (isExhaustiveOptional hs o.ty = false →
        InspectOptionalR R hs o
          = OptOut.optionalError (!(invocable hs o.ty)) (!(invocableZero hs)))
    ∧ InspectOptionalR Ty.tString [hValueInt, hNoValue]
        { ty := Ty.tInt, val := some (Val.vInt 42) }
        = OptOut.dispatched (some (Val.vStr ("Value: 42")))
    ∧ InspectOptionalR Ty.tString [hValueInt, hNoValue]
        { ty := Ty.tInt, val := none }
        = OptOut.dispatched (some (Val.vStr ("No Value"))) := by
  intro R hs o
  have hiff : (InspectOptionalR R hs o).isDispatched
      = isExhaustiveOptional hs o.ty := by
    cases hex : isExhaustiveOptional hs o.ty
    · simp [InspectOptionalR, hex, OptOut.isDispatched]
    · simp [InspectOptionalR, hex, OptOut.isDispatched]
  refine ⟨?_, ?_, by decide, by decide⟩
  · rw [hiff]
    simp only [isExhaustiveOptional]
    rw [Bool.and_eq_true]
  · intro hnex
    simp [InspectOptionalR, hnex]

theorem claim_C6_witness :
    InspectOptionalR Ty.tString [hValueInt] { ty := Ty.tInt, val := none }
      = OptOut.optionalError false true := by
  have h := (claim_C6_optional Ty.tString [hValueInt]
    { ty := Ty.tInt, val := none }).2.1 (by decide)
  exact h.trans (by decide)

/-- Claim C7: for every Result with distinct payload types, Inspect invokes
exactly one handler, the one overload resolution selects for the active
case's payload type, applied to the bare payload: a success value is
dispatched through the handler resolved at the success type and a failure
value through the handler resolved at the error type; concretely a success
value wrapping 100 with (int-handler, error-handler) yields "Value: 100"
and a failure value wrapping error code 1 yields "Error: 1". -/
theorem claim_C7_expected_dispatch : ∀ (T E : Ty) (p : Val)
    (hs : List Handler) (R : Ty) (h : Handler),
    (T ≠ E → isExhaustiveExpected hs T E = true →
      ((resolve hs T = some h →
          InspectExpectedR R hs (mkOk T E p)
            = EOut.dispatched (if convertible (h.retTy T) R
                then some (castVal R (h.run p)) else none))
        ∧ (resolve hs E = some h →
          InspectExpectedR R hs (mkError T E p)
            = EOut.dispatched (if convertible (h.retTy E) R
                then some (castVal R (h.run p)) else none))))
    ∧ InspectExpectedR Ty.tString [hValueInt, hErrCode]
        (mkOk Ty.tInt Ty.tErrorCode (Val.vInt 100))
        = EOut.dispatched (some (Val.vStr ("Value: 100")))
    ∧ InspectExpectedR Ty.tString [hValueInt, hErrCode]
        (mkError Ty.tInt Ty.tErrorCode (Val.vErrorCode 1))
        = EOut.dispatched (some (Val.vStr ("Error: 1"))) := by
  intro T E p hs R h
  refine ⟨?_, by decide, by decide⟩
  intro hne hex
  have hvt : valueTyOf T E = T := if_neg hne
  have het : errorTyOf T E = E := if_neg hne
  constructor
  · intro hres
    simp only [InspectExpectedR, mkOk, hvt, het, hex, if_true, hres]
    simp [hne]
  · intro hres
    simp only [InspectExpectedR, mkError, hvt, het, hex, if_true, hres]
    simp [hne]

theorem claim_C7_witness :
    InspectExpectedR Ty.tString [hValueInt, hErrCode]
        (mkOk Ty.tInt Ty.tErrorCode (Val.vInt 100))
      = EOut.dispatched (if convertible (Handler.retTy hValueInt Ty.tInt) Ty.tString
          then some (castVal Ty.tString (Handler.run hValueInt (Val.vInt 100)))
          else none) :=
  ((claim_C7_expected_dispatch Ty.tInt Ty.tErrorCode (Val.vInt 100)
    [hValueInt, hErrCode] Ty.tString hValueInt).1 (by decide) (by decide)).1
    (by rfl)

theorem claim_C3_witness :
    InspectExpectedR Ty.tString [hOkInt, hErrInt]
        (mkOk Ty.tInt Ty.tInt (Val.vInt 55))
      = EOut.dispatched (if convertible (Handler.retTy hOkInt (Ty.tOk Ty.tInt)) Ty.tString
          then some (castVal Ty.tString (Handler.run hOkInt (Val.vOk (Val.vInt 55))))
          else none) :=
  (claim_C3_same_type_wrappers Ty.tInt (Val.vInt 55) [hOkInt, hErrInt]
    Ty.tString hOkInt).2.2.2.2.1 (by decide) (by rfl)

/-- Claim C8: the dispatcher is a pure function of the inspected value and
the handlers — written in state-passing form, two successive Inspect calls
on the same immutable value with the same handlers return equal results for
every shape (variant, optional, Result), and the value handed back after
both calls is the value that was passed in, unchanged. -/
theorem claim_C8_idempotent : ∀ (alts : List Ty) (hs : List Handler)
    (v : Val) (R : Ty) (o : OptVal) (r : Result),
    (InspectVariantTwice alts hs v).1 = (InspectVariantTwice alts hs v).2.1
    ∧ (InspectVariantTwice alts hs v).2.2 = v
    ∧ (InspectOptionalTwice R hs o).1 = (InspectOptionalTwice R hs o).2.1
    ∧ (InspectOptionalTwice R hs o).2.2 = o
    ∧ (InspectExpectedTwice R hs r).1 = (InspectExpectedTwice R hs r).2.1
    ∧ (InspectExpectedTwice R hs r).2.2 = r := by
  intro alts hs v R o r
  exact ⟨rfl, rfl, rfl, rfl, rfl, rfl⟩

/-- Claim C9: every Result satisfies that exactly one of has_value and
has_error is true; a Result is (up to its representation) always the image
of the `Ok<T>` constructor or of the `Error<E>` constructor, and both
constructors establish the invariant. -/
theorem claim_C9_result_invariant : ∀ (r : Result) (T E : Ty) (p : Val),
    r.has_value = !r.has_error
    ∧ ((∃ q, r = mkOk r.T r.E q) ∨ (∃ q, r = mkError r.T r.E q))
    ∧ (mkOk T E p).has_value = true ∧ (mkOk T E p).has_error = false
    ∧ (mkError T E p).has_value = false ∧ (mkError T E p).has_error = true := by
  intro r T E p
  obtain ⟨Tr, Er, d⟩ := r
  cases d with
  | inl q => exact ⟨rfl, Or.inl ⟨q, rfl⟩, rfl, rfl, rfl, rfl⟩
  | inr q => exact ⟨rfl, Or.inr ⟨q, rfl⟩, rfl, rfl, rfl, rfl⟩

/-- Claim C10: for every Result, value() returns normally exactly when
has_value() is true and error() returns normally exactly when has_error()
is true; value() on a failure-state Result and error() on a success-state
Result never return a payload — they assert and abort, modelled by
`none`. -/
theorem claim_C10_accessor_guard : ∀ r : Result,
    (r.valueOpt).isSome = r.has_value
    ∧ (r.errorOpt).isSome = r.has_error
    ∧ (r.has_value = false → r.valueOpt = none)
    ∧ (r.has_error = false → r.errorOpt = none) := by
  intro r
  obtain ⟨Tr, Er, d⟩ := r
  cases d with
  | inl q => exact ⟨rfl, rfl, fun h => Bool.noConfusion h, fun _ => rfl⟩
  | inr q => exact ⟨rfl, rfl, fun _ => rfl, fun h => Bool.noConfusion h⟩

theorem claim_C10_witness :
    Result.valueOpt (mkError Ty.tInt Ty.tErrorCode (Val.vErrorCode 0)) = none :=
  (claim_C10_accessor_guard
    (mkError Ty.tInt Ty.tErrorCode (Val.vErrorCode 0))).2.2.1 (by decide)
